import Mathlib

/-!
Verification of `packages/to-markdown/index.js`: a renderer that turns a
custom-elements manifest into an mdast document tree (headings, tables,
raw-html separators).  The JavaScript is shallowly embedded: JS runtime
values become `JSVal`, mdast nodes become `Node`, and each source function
becomes a Lean definition of the same name.  The helper module
`lib/fp.js` is not part of the sources; its helpers are modelled from the
spec (§2 item 1, §4.1), as marked on each definition.  Text serialization
(`lib/serialize.js`) is an external collaborator per the spec (§1, §6), so
the top level returns the document tree.
-/

/-- A JavaScript runtime value, as far as the renderer observes them:
primitives, arrays and plain objects (association lists of fields). -/
inductive JSVal : Type where
  | undefined
  | nullv
  | bool (b : Bool)
  | num (n : Int)
  | str (s : String)
  | arr (elems : List JSVal)
  | obj (fields : List (String × JSVal))

/-- JS truthiness: `undefined`, `null`, `false`, `0` and `""` are falsy;
every array and object is truthy. -/
def truthy : JSVal → Bool
  | .undefined => false
  | .nullv => false
  | .bool b => b
  | .num n => n != 0
  | .str s => !(s == "")
  | .arr _ => true
  | .obj _ => true

/-- JS nullishness (`??` and `?.` trigger on exactly these). -/
def nullish : JSVal → Bool
  | .undefined => true
  | .nullv => true
  | _ => false

/-- The JS nullish-coalescing operator `a ?? b`. -/
def jsOr (a b : JSVal) : JSVal :=
  if nullish a then b else a

/-- Optional-chaining property access `x?.[key]` / `x?.key`: `undefined`
on non-objects and on missing keys. -/
def JSVal.getField : JSVal → String → JSVal
  | .obj fields, key => (((fields.find? (fun f => f.1 == key)).map (fun f => f.2)).getD .undefined)
  | _, _ => .undefined

/-- JS `===` against a string literal. -/
def strEq (v : JSVal) (s : String) : Bool :=
  match v with
  | .str t => t == s
  | _ => false

/-- JS template-literal coercion of an interpolated value.  The renderer
only interpolates schema values that are strings or absent
(`param?.name`, `kind`); composite values render by their JS tags. -/
def tmplStr : JSVal → String
  | .undefined => "undefined"
  | .nullv => "null"
  | .bool b => cond b "true" "false"
  | .num n => toString n
  | .str s => s
  | .arr _ => ""
  | .obj _ => "[object Object]"

/-- Reads an optional array-valued field: the renderer spreads or filters
such values after `?? []`, so only an actual array yields elements. -/
def asArr : JSVal → Option (List JSVal)
  | .arr elems => some elems
  | _ => none

/-- An mdast node, as built by `mdast-builder`: `text`/`inlineCode` store
the raw value they are given; `table` stores the alignment array. -/
inductive Node : Type where
  | text (value : JSVal)
  | inlineCode (value : JSVal)
  | html (value : String)
  | heading (depth : Int) (children : List Node)
  | tableCell (children : List Node)
  | tableRow (children : List Node)
  | table (align : List JSVal) (children : List Node)
  | root (children : List Node)

/-- Models `const line = html('<hr/>')` (index.js line 12). -/
def line : Node := Node.html "<hr/>"

/-- Modelled from the spec: `capital` from `lib/fp.js` — "capitalize(name)"
(§4.1): upper-case the first character. -/
def capital (s : String) : String :=
  match s.data with
  | [] => ""
  | c :: cs => String.mk (c.toUpper :: cs)

/-- Modelled from the spec: `isPrivate` from `lib/fp.js` — the member's
`privacy` tag equals `"private"`; tolerant of absent records/fields
(privacy absent means public, §3). -/
def isPrivate (x : JSVal) : Bool :=
  strEq (x.getField "privacy") "private"

/-- Modelled from the spec: `isProtected` from `lib/fp.js` — the member's
`privacy` tag equals `"protected"`. -/
def isProtected (x : JSVal) : Bool :=
  strEq (x.getField "privacy") "protected"

/-- Modelled from the spec: `isLengthy` from `lib/fp.js` — the
emptiness/length check (§2 item 1): a non-empty sequence. -/
def isLengthy (xs : List α) : Bool :=
  !xs.isEmpty

/-- Modelled from the spec: `kindIs` from `lib/fp.js` — kind-equality
predicate (§2 item 1). -/
def kindIs (k : String) (x : JSVal) : Bool :=
  strEq (x.getField "kind") k

/-- Modelled from the spec: `not` from `lib/fp.js` — predicate negation. -/
def not' (p : α → Bool) (x : α) : Bool :=
  !(p x)

/-- Modelled from the spec: `or` from `lib/fp.js` — predicate disjunction. -/
def or' (p q : α → Bool) (x : α) : Bool :=
  p x || q x

/-- Modelled from the spec: `identity` from `lib/fp.js`, in filtering
position — `xs.filter(identity)` keeps exactly the truthy elements. -/
def identityFilter : JSVal → Bool := truthy

/-- The per-render configuration (§6): `{ headingOffset, private }`; both
optional. -/
structure Options : Type where
  «private» : Option String := none
  headingOffset : Option Int := none

/-- Models `options?.private` — the whole options object may be absent. -/
def optPrivate (options : Option Options) : Option String :=
  options.bind (fun o => o.«private»)

/-- Models `options?.headingOffset ?? 0`. -/
def jsHeadingOffset (options : Option Options) : Int :=
  (options.bind (fun o => o.headingOffset)).getD 0

/-- A resolved column descriptor `{heading, get, cellType}`; `cellType`
is absent when the descriptor object omits it. -/
structure Descriptor : Type where
  heading : String
  get : JSVal → JSVal
  cellType : Option (JSVal → Node) := none

/-- A column spec as passed to `tableWithTitle`: a bare field name or an
explicit descriptor object. -/
inductive ColumnSpec : Type where
  | str (name : String)
  | desc (d : Descriptor)

/-- A projected column `{heading, cellType, values}`. -/
structure Column : Type where
  heading : String
  cellType : JSVal → Node
  values : List JSVal

/-- index.js lines 14–15: joins `name: type` renderings of a record's
`parameters`; `undefined` when the chain is nullish.  (A truthy
non-array `parameters` is outside the schema and never occurs.) -/
def formatParameters (x : JSVal) : JSVal :=
  match x.getField "parameters" with
  | .arr ps => .str (String.intercalate ", " (ps.map (fun p =>
      tmplStr (p.getField "name") ++
        (if truthy ((p.getField "type").getField "text")
          then ": " ++ tmplStr ((p.getField "type").getField "text")
          else ""))))
  | _ => .undefined

/-- index.js line 17. -/
def DECLARATION : Descriptor :=
  { heading := "Declaration", get := fun x => jsOr ((x.getField "declaration").getField "name") (.str "") }

/-- index.js line 18. -/
def DEFAULT : Descriptor :=
  { heading := "Default", get := fun x => x.getField "default", cellType := some Node.inlineCode }

/-- index.js line 19. -/
def ATTR_FIELD : Descriptor :=
  { heading := "Field", get := fun x => x.getField "fieldName" }

/-- index.js line 20. -/
def INHERITANCE : Descriptor :=
  { heading := "Inherited From", get := fun x => jsOr ((x.getField "inheritedFrom").getField "name") (.str "") }

/-- index.js line 21. -/
def MODULE : Descriptor :=
  { heading := "Module", get := fun x => jsOr ((x.getField "declaration").getField "module") (.str "") }

/-- index.js line 22. -/
def PACKAGE : Descriptor :=
  { heading := "Package", get := fun x => jsOr ((x.getField "declaration").getField "package") (.str "") }

/-- index.js line 23. -/
def PARAMETERS : Descriptor :=
  { heading := "Parameters", get := formatParameters, cellType := some Node.inlineCode }

/-- index.js line 24: `x.return?.type?.text ?? x.return`. -/
def RETURN : Descriptor :=
  { heading := "Return",
    get := fun x => jsOr (((x.getField "return").getField "type").getField "text") (x.getField "return"),
    cellType := some Node.inlineCode }

/-- index.js line 25. -/
def TYPE : Descriptor :=
  { heading := "Type", get := fun x => jsOr ((x.getField "type").getField "text") (.str ""), cellType := some Node.inlineCode }

/-- index.js lines 28–40: the `kind: name(, tagName)` heading of a
class/mixin section. -/
def declarationHeading (options : Option Options) (decl : JSVal) : Node :=
  Node.heading (2 + jsHeadingOffset options)
    ([Node.text (.str (tmplStr (decl.getField "kind") ++ ": ")),
      Node.inlineCode (decl.getField "name")]
      ++ (if truthy (decl.getField "tagName")
          then [Node.text (.str ", "), Node.inlineCode (decl.getField "tagName")]
          else []))

/-- index.js lines 43–44. -/
def defaultDescriptor (name : String) : Descriptor :=
  { heading := capital name, get := fun x => x.getField name }

/-- index.js lines 47–48. -/
def getDescriptor : ColumnSpec → Descriptor
  | .str name => defaultDescriptor name
  | .desc d => d

/-- index.js lines 51–53: `cellType` defaults to `text` here. -/
def getColumn (decls : List JSVal) (d : Descriptor) : Column :=
  { heading := d.heading, cellType := d.cellType.getD Node.text, values := decls.map d.get }

/-- index.js lines 56–57. -/
def getHeading (x : Column) : Node :=
  Node.tableCell [Node.text (.str x.heading)]

/-- index.js lines 60–62: `values[i] ? cellType(values[i]) : text('')`;
an out-of-range index reads `undefined`. -/
def getCell (i : Nat) (x : Column) : Node :=
  Node.tableCell [if truthy (x.values.getD i .undefined) then x.cellType (x.values.getD i .undefined) else Node.text (.str "")]

/-- index.js lines 65–67: `Array.prototype.map` feeds the element index;
the element itself is ignored. -/
def getRows (columns : List Column) (i : Nat) : Node :=
  Node.tableRow (columns.map (getCell i))

/-- The destructured fourth argument of `tableWithTitle`
(`{ headingLevel = 3, filter } = { }`, index.js line 77). -/
structure TableOpts : Type where
  headingLevel : Int := 3
  filter : Option (JSVal → Bool) := none

/-- index.js lines 78–83: the row filter `by` — an explicit function
filter wins, else the `options.private` policy, else `identity`
(truthiness). -/
def visibilityFilter (options : Option Options) (topts : TableOpts) : JSVal → Bool :=
  match topts.filter with
  | some f => f
  | none =>
    if optPrivate options == some "hidden" then not' isPrivate
    else if optPrivate options == some "details" then not' (or' isPrivate isProtected)
    else identityFilter

/-- index.js line 85: `(_decls ?? []).filter(by).filter(identity)` — the
rows that survive the visibility filter and the falsy-entry removal. -/
def surviving (options : Option Options) (topts : TableOpts) (_decls : Option (List JSVal)) : List JSVal :=
  ((_decls.getD []).filter (visibilityFilter options topts)).filter truthy

/-- index.js lines 70–104: a titled table section, or `[]` when no row
survives. -/
def tableWithTitle (options : Option Options) (title : String) (names : List ColumnSpec)
    (_decls : Option (List JSVal)) (topts : TableOpts) : List Node :=
  let decls := surviving options topts _decls
  if !(isLengthy decls) then []
  else
    let columns := names.map (fun n => getColumn decls (getDescriptor n))
    [Node.heading (topts.headingLevel + jsHeadingOffset options) [Node.text (.str title)],
     Node.table (List.replicate columns.length JSVal.nullv)
       (Node.tableRow (columns.map getHeading) :: (List.range decls.length).map (getRows columns))]

/-- Column specs of the Superclass and Mixins tables (index.js 132–133). -/
def refColumns : List ColumnSpec := [.str "name", .str "module", .str "package"]

/-- Column specs of a mixin's Parameters table (index.js 135). -/
def mixinParamColumns : List ColumnSpec := [.str "name", .desc TYPE, .desc DEFAULT, .str "description"]

/-- Column specs of the Fields tables (index.js 137, 153). -/
def fieldColumns : List ColumnSpec :=
  [.str "name", .str "privacy", .desc TYPE, .desc DEFAULT, .str "description", .desc INHERITANCE]

/-- Column specs of the Methods tables (index.js 138, 154). -/
def methodColumns : List ColumnSpec :=
  [.str "name", .str "privacy", .str "description", .desc PARAMETERS, .desc RETURN, .desc INHERITANCE]

/-- Column specs of the Events table (index.js 139). -/
def eventColumns : List ColumnSpec := [.str "name", .desc TYPE, .str "description", .desc INHERITANCE]

/-- Column specs of the Attributes table (index.js 140). -/
def attributeColumns : List ColumnSpec := [.str "name", .desc ATTR_FIELD, .desc INHERITANCE]

/-- Column specs of the CSS Properties table (index.js 141). -/
def cssPropColumns : List ColumnSpec := [.str "name", .desc DEFAULT, .str "description"]

/-- Column specs of the Parts and Slots tables (index.js 142–143). -/
def nameDescColumns : List ColumnSpec := [.str "name", .str "description"]

/-- Column specs of the module-level Variables table (index.js 165). -/
def variableColumns : List ColumnSpec := [.str "name", .str "description", .desc TYPE]

/-- Column specs of the module-level Functions table (index.js 167). -/
def functionColumns : List ColumnSpec := [.str "name", .str "description", .desc PARAMETERS, .desc RETURN]

/-- Column specs of the module-level Exports table (index.js 169). -/
def exportColumns : List ColumnSpec :=
  [.str "kind", .str "name", .desc DECLARATION, .desc MODULE, .desc PACKAGE]

/-- index.js line 152. -/
def privateApiOpen : Node := Node.html "<details><summary>Private API</summary>"

/-- index.js line 155. -/
def privateApiClose : Node := Node.html "</details>"

/-- index.js lines 126–127: `decl.members ?? []` filtered to `field`
members. -/
def declFields (decl : JSVal) : List JSVal :=
  ((asArr (decl.getField "members")).getD []).filter (kindIs "field")

/-- index.js lines 126, 128: `decl.members ?? []` filtered to `method`
members. -/
def declMethods (decl : JSVal) : List JSVal :=
  ((asArr (decl.getField "members")).getD []).filter (kindIs "method")

/-- index.js lines 130–144: the main node array of one declaration
section.  The literal array holds `null` in its first slot for
non-class, non-mixin kinds; `.filter(identity)` (line 144) then removes
it — every other entry is an mdast node, hence truthy — modelled by
`Option` and `filterMap`. -/
def declMainNodes (options : Option Options) (decl : JSVal) : List Node :=
  ((if !(strEq (decl.getField "kind") "mixin" || strEq (decl.getField "kind") "class")
      then [none] else [some (declarationHeading options decl)])
    ++ (tableWithTitle options "Superclass" refColumns (some [decl.getField "superclass"]) {}).map some
    ++ (tableWithTitle options "Mixins" refColumns (asArr (decl.getField "mixins")) {}).map some
    ++ (if strEq (decl.getField "kind") "mixin"
        then tableWithTitle options "Parameters" mixinParamColumns (asArr (decl.getField "parameters")) {}
        else []).map some
    ++ (tableWithTitle options "Fields" fieldColumns (some (declFields decl)) {}).map some
    ++ (tableWithTitle options "Methods" methodColumns (some (declMethods decl)) {}).map some
    ++ (tableWithTitle options "Events" eventColumns (asArr (decl.getField "events")) {}).map some
    ++ (tableWithTitle options "Attributes" attributeColumns (asArr (decl.getField "attributes")) {}).map some
    ++ (tableWithTitle options "CSS Properties" cssPropColumns (asArr (decl.getField "cssProperties")) {}).map some
    ++ (tableWithTitle options "Parts" nameDescColumns (asArr (decl.getField "parts")) {}).map some
    ++ (tableWithTitle options "Slots" nameDescColumns (asArr (decl.getField "slots")) {}).map some
    ).filterMap id

/-- index.js lines 146–150: the private-API guard — policy `"details"`
and at least one protected/private field or method. -/
def privateApiCondition (options : Option Options) (decl : JSVal) : Bool :=
  optPrivate options == some "details"
    && (isLengthy ((declFields decl).filter (or' isPrivate isProtected))
      || isLengthy ((declMethods decl).filter (or' isPrivate isProtected)))

/-- index.js lines 151–156: the collapsible private-API block — the
protected/private member subsets rendered with the filter bypassed
(`{ filter: identity }`). -/
def privateApiNodes (options : Option Options) (decl : JSVal) : List Node :=
  [privateApiOpen]
    ++ tableWithTitle options "Fields" fieldColumns
        (some ((declFields decl).filter (or' isPrivate isProtected))) { filter := some identityFilter }
    ++ tableWithTitle options "Methods" methodColumns
        (some ((declMethods decl).filter (or' isPrivate isProtected))) { filter := some identityFilter }
    ++ [privateApiClose]

/-- index.js lines 124–162: the per-declaration section, inlined in
`makeModuleDoc` as the `declarations.flatMap` callback: the main nodes,
the private-API block when its guard holds, and a trailing separator
when anything was emitted. -/
def declSection (options : Option Options) (decl : JSVal) : List Node :=
  let nodes := declMainNodes options decl
  let nodes := if privateApiCondition options decl then nodes ++ privateApiNodes options decl else nodes
  if nodes.length != 0 then nodes ++ [line] else nodes

/-- A manifest module (§3, `Module` in the schema; renamed as Lean has a
`Module` class): a path plus optional declaration and export arrays; any
field may be absent in a partially-populated input. -/
structure ManifestModule : Type where
  path : JSVal := .undefined
  declarations : Option (List JSVal) := none
  exports : Option (List JSVal) := none

/-- The manifest (§3): its `modules` field may be absent, which is the
one contract violation the top level does not tolerate (§7). -/
structure Manifest : Type where
  modules : Option (List ManifestModule) := none

/-- Models `declarations.filter(kindIs('variable'))` (index.js line 119). -/
def moduleVariables (declarations : List JSVal) : List JSVal :=
  declarations.filter (kindIs "variable")

/-- Models `declarations.filter(kindIs('function'))` (index.js line 120). -/
def moduleFunctions (declarations : List JSVal) : List JSVal :=
  declarations.filter (kindIs "function")

/-- index.js lines 111–173: one module's document, or absent when the
module has neither declarations nor exports.  The trailing
`.filter(identity)` of line 170 keeps everything: every entry of the
assembled array is an mdast node, hence truthy. -/
def makeModuleDoc (mod : ManifestModule) (options : Option Options) : Option (List Node) :=
  let declarations := mod.declarations.getD []
  let exports := mod.exports.getD []
  if declarations.length == 0 && exports.length == 0 then none
  else some ((
    [Node.heading (1 + jsHeadingOffset options) [Node.inlineCode mod.path, Node.text (.str ":")]]
      ++ declarations.flatMap (declSection options)
      ++ tableWithTitle options "Variables" variableColumns (some (moduleVariables declarations)) { headingLevel := 2 }
      ++ (if (moduleVariables declarations).length != 0 then [line] else [])
      ++ tableWithTitle options "Functions" functionColumns (some (moduleFunctions declarations)) { headingLevel := 2 }
      ++ (if (moduleFunctions declarations).length != 0 then [line] else [])
      ++ tableWithTitle options "Exports" exportColumns mod.exports { headingLevel := 2 }
    ).filter (fun _ => true))

/-- index.js lines 180–187: the root document.  `flatMap` keeps an
`undefined` return of `makeModuleDoc` as a single element (modelled by
`none`), and line 184's `.filter(identity)` drops exactly those, mdast
nodes being truthy.  Serialization is an external collaborator (§1, §6),
so the tree is the result; a manifest without a `modules` array is the
contract violation that surfaces here as a thrown `TypeError` (§7). -/
def customElementsManifestToMarkdown (manifest : Manifest) (options : Option Options) :
    Except String Node :=
  match manifest.modules with
  | none => .error "TypeError: manifest.modules is undefined"
  | some mods =>
    .ok (Node.root ((mods.flatMap (fun x =>
      match makeModuleDoc x options with
      | some ns => ns.map some
      | none => [none])).filterMap id))

/-! Concrete schema inputs used by witnesses and scenario checks. -/

/-- A public field member. -/
def pubField (n : String) : JSVal := .obj [("kind", .str "field"), ("name", .str n)]

/-- A private field member. -/
def privField : JSVal := .obj [("kind", .str "field"), ("name", .str "c"), ("privacy", .str "private")]

/-- Scenario A/B input: a class with two public fields and one private
field. -/
def classDecl : JSVal := .obj [("kind", .str "class"), ("name", .str "C"),
  ("members", .arr [pubField "a", pubField "b", privField])]

/-- Options selecting the `"details"` policy. -/
def detailsOptions : Option Options := some { «private» := some "details" }

/-- Options selecting the `"hidden"` policy. -/
def hiddenOptions : Option Options := some { «private» := some "hidden" }

/-- A row whose only privacy-relevant attribute is `protected`. -/
def protectedRow : JSVal := .obj [("privacy", .str "protected")]

/-- A variable declaration row. -/
def varRow : JSVal := .obj [("kind", .str "variable"), ("name", .str "v")]

/-- An event row. -/
def eventRow : JSVal := .obj [("name", .str "change")]

/-- The per-table data-row counts of a node sequence: for each table
node, its row count minus the header row. -/
def dataRowCounts (nodes : List Node) : List Nat :=
  nodes.filterMap fun n => match n with
    | .table _ rows => some (rows.length - 1)
    | _ => none

/-! Shared structural lemmas about `tableWithTitle`. -/

/-- With no surviving row, `tableWithTitle` emits nothing. -/
lemma tableWithTitle_nil (options : Option Options) (title : String) (names : List ColumnSpec)
    (_decls : Option (List JSVal)) (topts : TableOpts)
    (h : surviving options topts _decls = []) :
    tableWithTitle options title names _decls topts = [] := by
  unfold tableWithTitle
  simp [isLengthy, h]

/-- With at least one surviving row, `tableWithTitle` emits exactly a
heading node and a table node, of this shape. -/
lemma tableWithTitle_pos (options : Option Options) (title : String) (names : List ColumnSpec)
    (_decls : Option (List JSVal)) (topts : TableOpts)
    (h : surviving options topts _decls ≠ []) :
    tableWithTitle options title names _decls topts =
      [Node.heading (topts.headingLevel + jsHeadingOffset options) [Node.text (.str title)],
       Node.table
         (List.replicate (names.map (fun n => getColumn (surviving options topts _decls) (getDescriptor n))).length JSVal.nullv)
         (Node.tableRow ((names.map (fun n => getColumn (surviving options topts _decls) (getDescriptor n))).map getHeading)
           :: (List.range (surviving options topts _decls).length).map
                (getRows (names.map (fun n => getColumn (surviving options topts _decls) (getDescriptor n)))))] := by
  unfold tableWithTitle
  simp [isLengthy, List.isEmpty_iff, h]

/-- The builder `tableWithTitle` is empty exactly when no row survives. -/
lemma tableWithTitle_eq_nil_iff (options : Option Options) (title : String) (names : List ColumnSpec)
    (_decls : Option (List JSVal)) (topts : TableOpts) :
    tableWithTitle options title names _decls topts = [] ↔ surviving options topts _decls = [] := by
  by_cases h : surviving options topts _decls = []
  · simp [tableWithTitle_nil options title names _decls topts h, h]
  · simp [tableWithTitle_pos options title names _decls topts h, h]

/-- Every node emitted by `tableWithTitle` is a heading or a table. -/
lemma mem_tableWithTitle_shape {n : Node} (options : Option Options) (title : String)
    (names : List ColumnSpec) (_decls : Option (List JSVal)) (topts : TableOpts)
    (h : n ∈ tableWithTitle options title names _decls topts) :
    (∃ d c, n = Node.heading d c) ∨ (∃ a rs, n = Node.table a rs) := by
  by_cases hs : surviving options topts _decls = []
  · rw [tableWithTitle_nil options title names _decls topts hs] at h
    simp at h
  · rw [tableWithTitle_pos options title names _decls topts hs] at h
    simp only [List.mem_cons, List.not_mem_nil, or_false] at h
    rcases h with h | h
    · exact Or.inl ⟨_, _, h⟩
    · exact Or.inr ⟨_, _, h⟩

/-- An html node (separator, details marker) is never part of a table
section. -/
lemma html_not_mem_tableWithTitle (s : String) (options : Option Options) (title : String)
    (names : List ColumnSpec) (_decls : Option (List JSVal)) (topts : TableOpts) :
    Node.html s ∉ tableWithTitle options title names _decls topts := by
  intro h
  rcases mem_tableWithTitle_shape options title names _decls topts h with ⟨d, c, hc⟩ | ⟨a, rs, hc⟩ <;>
    exact Node.noConfusion hc

/-- Under default table options, the `"hidden"` policy filter is
`not(isPrivate)`. -/
lemma visibilityFilter_hidden (ho : Option Int) :
    visibilityFilter (some { «private» := some "hidden", headingOffset := ho }) {} = not' isPrivate := rfl

/-- Under default table options, the `"details"` policy filter is
`not(or(isPrivate, isProtected))`. -/
lemma visibilityFilter_details (ho : Option Int) :
    visibilityFilter (some { «private» := some "details", headingOffset := ho }) {} =
      not' (or' isPrivate isProtected) := rfl

/-- With absent options the filter is the identity (truthiness). -/
lemma visibilityFilter_default :
    visibilityFilter none {} = identityFilter := rfl

/-- Rows that are truthy and neither private nor protected survive every
policy filter unchanged. -/
lemma surviving_schema (options : Option Options) (topts : TableOpts) (rows : List JSVal)
    (hf : topts.filter = none)
    (h : ∀ d ∈ rows, truthy d = true ∧ isPrivate d = false ∧ isProtected d = false) :
    surviving options topts (some rows) = rows := by
  unfold surviving visibilityFilter
  rw [hf]
  simp only [Option.getD_some]
  rw [List.filter_filter]
  rw [List.filter_eq_self]
  intro a ha
  rcases h a ha with ⟨ht, hp, hpr⟩
  split
  · simp [not', ht, hp]
  · split
    · simp [not', or', ht, hp, hpr]
    · simp [identityFilter, ht]

/-- A single falsy row (such as an absent `superclass`) never survives:
every policy filter is followed by the falsy-entry removal. -/
lemma surviving_undefined (options : Option Options) :
    surviving options {} (some [JSVal.undefined]) = [] := by
  show List.filter truthy (List.filter
    (if optPrivate options == some "hidden" then not' isPrivate
      else if optPrivate options == some "details" then not' (or' isPrivate isProtected)
      else identityFilter) [JSVal.undefined]) = []
  split
  · rfl
  · split
    · rfl
    · rfl

/-- Claim C1, as the spec states it, is false on the code: a protected
row is retained by the `"hidden"` policy (which drops only private rows)
but dropped from the main table by the `"details"` policy, so the
`"hidden"` row count is not bounded by the `"details"` row count. -/
theorem c1_hidden_subset_details_counterexample :
    ¬ ((surviving hiddenOptions {} (some [protectedRow])).length ≤
        (surviving detailsOptions {} (some [protectedRow])).length) := by
  decide

/-- Claim C1 (amended): privacy filtering is monotonic in the order
`"details"` ⊆ `"hidden"` ⊆ default — for every row list, the rows
retained under `"details"` are at most those retained under `"hidden"`,
which are at most those retained with the policy absent. -/
theorem c1_policy_monotonic (ho : Option Int) (rows : Option (List JSVal)) :
    (surviving (some { «private» := some "details", headingOffset := ho }) {} rows).length ≤
        (surviving (some { «private» := some "hidden", headingOffset := ho }) {} rows).length ∧
      (surviving (some { «private» := some "hidden", headingOffset := ho }) {} rows).length ≤
        (surviving (none : Option Options) {} rows).length := by
  unfold surviving
  rw [visibilityFilter_details, visibilityFilter_hidden, visibilityFilter_default]
  rw [List.filter_filter, List.filter_filter, List.filter_filter]
  constructor
  · refine List.Sublist.length_le (List.monotone_filter_right _ ?_)
    intro a ha
    simp only [not', or', Bool.and_eq_true, Bool.not_eq_true', Bool.or_eq_false_iff] at ha ⊢
    exact ⟨ha.1, ha.2.1⟩
  · refine List.Sublist.length_le (List.monotone_filter_right _ ?_)
    intro a ha
    simp only [identityFilter, Bool.and_eq_true] at ha ⊢
    exact ⟨ha.1, ha.1⟩

/-- Claim C2: a table section is emitted if and only if at least one row
survives the visibility filter and falsy-entry removal; any emitted
section is exactly one heading node and one table node; and an absent
(`undefined`) superclass yields no Superclass heading or table at all. -/
theorem c2_section_iff_survivors (options : Option Options) (title : String)
    (names : List ColumnSpec) (_decls : Option (List JSVal)) (topts : TableOpts) :
    (tableWithTitle options title names _decls topts = [] ↔ surviving options topts _decls = []) ∧
    (tableWithTitle options title names _decls topts = [] ∨
      ∃ d c a rs, tableWithTitle options title names _decls topts = [Node.heading d c, Node.table a rs]) ∧
    tableWithTitle options "Superclass" refColumns (some [JSVal.undefined]) {} = [] := by
  refine ⟨tableWithTitle_eq_nil_iff options title names _decls topts, ?_, ?_⟩
  · by_cases h : surviving options topts _decls = []
    · exact Or.inl (tableWithTitle_nil options title names _decls topts h)
    · exact Or.inr ⟨_, _, _, _, tableWithTitle_pos options title names _decls topts h⟩
  · exact tableWithTitle_nil options "Superclass" refColumns (some [JSVal.undefined]) {}
      (surviving_undefined options)

/-- Claim C6: resolving a string column spec canonicalizes it to the
capitalized heading, the absent-tolerant `record[name]` accessor and the
plain-text cell formatter; an explicit descriptor object passes through
unchanged, with a missing `cellType` defaulting to plain text at column
projection. -/
theorem c6_descriptor_resolution (s : String) (d : Descriptor) (decls : List JSVal) (v : JSVal) :
    (getDescriptor (.str s)).heading = capital s ∧
    (getDescriptor (.str s)).get v = v.getField s ∧
    (getDescriptor (.str s)).get JSVal.undefined = JSVal.undefined ∧
    getColumn decls (getDescriptor (.str s)) =
      { heading := capital s, cellType := Node.text, values := decls.map (fun x => x.getField s) } ∧
    getDescriptor (.desc d) = d ∧
    (getColumn decls (getDescriptor (.desc d))).cellType = d.cellType.getD Node.text := by
  exact ⟨rfl, rfl, rfl, rfl, rfl, rfl⟩

/-- Claim C9: all table/section builders are total Lean functions over
arbitrary partially-populated inputs — `tableWithTitle` always returns
normally, with zero or two nodes — and the only failure the document
assembly admits is the contract violation of a manifest without a
`modules` sequence, which is exactly when the top level does not return
a document tree. -/
theorem c9_totality_and_boundary (m : Manifest) (options : Option Options) (title : String)
    (names : List ColumnSpec) (_decls : Option (List JSVal)) (topts : TableOpts) :
    ((∃ t, customElementsManifestToMarkdown m options = Except.ok t) ↔ m.modules.isSome = true) ∧
    ((tableWithTitle options title names _decls topts).length = 0 ∨
      (tableWithTitle options title names _decls topts).length = 2) := by
  constructor
  · rcases m with ⟨_ | mods⟩
    · simp [customElementsManifestToMarkdown]
    · simp [customElementsManifestToMarkdown]
  · by_cases h : surviving options topts _decls = []
    · rw [tableWithTitle_nil options title names _decls topts h]
      exact Or.inl rfl
    · rw [tableWithTitle_pos options title names _decls topts h]
      exact Or.inr rfl

/-- Claim C10: a cell's formatter is applied exactly to truthy projected
values; every falsy value — `undefined`, but also the empty string, the
number `0` and `false` — renders as an empty plain-text cell, with the
formatter (universally quantified here) never consulted. -/
theorem c10_falsy_cells (i : Nat) (c : Column) (hd : String) (f : JSVal → Node) :
    (truthy (c.values.getD i .undefined) = false →
      getCell i c = Node.tableCell [Node.text (.str "")]) ∧
    (truthy (c.values.getD i .undefined) = true →
      getCell i c = Node.tableCell [c.cellType (c.values.getD i .undefined)]) ∧
    getCell 0 { heading := hd, cellType := f, values := [.str ""] } =
      Node.tableCell [Node.text (.str "")] ∧
    getCell 0 { heading := hd, cellType := f, values := [.num 0] } =
      Node.tableCell [Node.text (.str "")] ∧
    getCell 0 { heading := hd, cellType := f, values := [.bool false] } =
      Node.tableCell [Node.text (.str "")] := by
  refine ⟨?_, ?_, rfl, rfl, rfl⟩
  · intro h
    unfold getCell
    rw [h]
    rfl
  · intro h
    unfold getCell
    rw [h]
    rfl

/-- Claim C3: tables built with the policy filter (no explicit
`opts.filter`) emit exactly the same nodes under any `options.private`
setting as under the default policy, whenever no row carries a
private/protected privacy tag — which is the case for events,
attributes, CSS properties, parts, slots and exports, none of which are
privacy-scoped in the schema (§3). -/
theorem c3_no_privacy_filtering (po : Option String) (ho : Option Int) (lvl : Int)
    (title : String) (names : List ColumnSpec) (_decls : Option (List JSVal))
    (h : ∀ r ∈ _decls.getD [], isPrivate r = false ∧ isProtected r = false) :
    tableWithTitle (some { «private» := po, headingOffset := ho }) title names _decls
        { headingLevel := lvl } =
      tableWithTitle (some { «private» := none, headingOffset := ho }) title names _decls
        { headingLevel := lvl } := by
  have hs : surviving (some { «private» := po, headingOffset := ho }) { headingLevel := lvl } _decls =
      surviving (some { «private» := none, headingOffset := ho }) { headingLevel := lvl } _decls := by
    unfold surviving
    rw [List.filter_filter, List.filter_filter]
    apply List.filter_congr
    intro a ha
    rcases h a ha with ⟨hp, hpr⟩
    show (truthy a &&
        (if po == some "hidden" then not' isPrivate
          else if po == some "details" then not' (or' isPrivate isProtected)
          else identityFilter) a) =
      (truthy a && identityFilter a)
    split
    · simp [not', identityFilter, hp]
    · split
      · simp [not', or', identityFilter, hp, hpr]
      · rfl
  by_cases he : surviving (some { «private» := po, headingOffset := ho }) { headingLevel := lvl } _decls = []
  · rw [tableWithTitle_nil _ _ _ _ _ he, tableWithTitle_nil _ _ _ _ _ (hs ▸ he)]
  · rw [tableWithTitle_pos _ _ _ _ _ he, tableWithTitle_pos _ _ _ _ _ (hs ▸ he), hs]
    rfl

/-- Witness for C3: an un-tagged event row renders identically under
`"hidden"` and under the absent policy. -/
theorem c3_no_privacy_filtering_witness :
    tableWithTitle (some { «private» := some "hidden", headingOffset := none }) "Events"
        eventColumns (some [eventRow]) { headingLevel := 3 } =
      tableWithTitle (some { «private» := none, headingOffset := none }) "Events"
        eventColumns (some [eventRow]) { headingLevel := 3 } :=
  c3_no_privacy_filtering (some "hidden") none 3 "Events" eventColumns (some [eventRow]) (by decide)

/-- Claim C5: every emitted table is rectangular — the section is a
heading plus a table whose alignment metadata has one slot per column,
with one header row plus one data row per surviving declaration, every
row holding exactly `columns.length` cells; and a falsy projected value
yields an empty text cell rather than an omitted one. -/
theorem c5_rectangular (options : Option Options) (title : String) (names : List ColumnSpec)
    (_decls : Option (List JSVal)) (topts : TableOpts)
    (h : surviving options topts _decls ≠ []) :
    (∃ rows, tableWithTitle options title names _decls topts =
        [Node.heading (topts.headingLevel + jsHeadingOffset options) [Node.text (.str title)],
         Node.table (List.replicate names.length JSVal.nullv) rows] ∧
      rows.length = (surviving options topts _decls).length + 1 ∧
      ∀ r ∈ rows, ∃ cells, r = Node.tableRow cells ∧ cells.length = names.length) ∧
    (∀ j col, truthy (Column.values col |>.getD j .undefined) = false →
      getCell j col = Node.tableCell [Node.text (.str "")]) := by
  constructor
  · refine ⟨Node.tableRow ((names.map (fun n => getColumn (surviving options topts _decls) (getDescriptor n))).map getHeading)
      :: (List.range (surviving options topts _decls).length).map
          (getRows (names.map (fun n => getColumn (surviving options topts _decls) (getDescriptor n)))), ?_, ?_, ?_⟩
    · rw [tableWithTitle_pos options title names _decls topts h]
      simp
    · simp
    · intro r hr
      rcases List.mem_cons.mp hr with hr | hr
      · exact ⟨_, hr, by simp⟩
      · rcases List.mem_map.mp hr with ⟨i, _, hi⟩
        exact ⟨_, hi.symm, by simp⟩
  · intro j col hj
    unfold getCell
    rw [hj]
    rfl

/-- Witness for C5 on a one-row, two-column Parts table. -/
theorem c5_rectangular_witness :
    ∃ rows, tableWithTitle none "Parts" nameDescColumns (some [eventRow]) {} =
        [Node.heading 3 [Node.text (.str "Parts")],
         Node.table (List.replicate 2 JSVal.nullv) rows] ∧
      rows.length = 2 ∧
      ∀ r ∈ rows, ∃ cells, r = Node.tableRow cells ∧ cells.length = 2 :=
  (c5_rectangular none "Parts" nameDescColumns (some [eventRow]) {}
    (by rw [show surviving none {} (some [eventRow]) = [eventRow] from rfl]; exact List.cons_ne_nil _ _)).1

/-- The top-level `flatMap`-then-`filter(identity)` pipeline concatenates
exactly the present module documents, in order. -/
lemma root_children_concat (options : Option Options) (mods : List ManifestModule) :
    (mods.flatMap (fun x => match makeModuleDoc x options with
        | some ns => ns.map some
        | none => [none])).filterMap id =
      mods.flatMap (fun m => (makeModuleDoc m options).getD []) := by
  induction mods with
  | nil => rfl
  | cons m t ih =>
    rw [List.flatMap_cons, List.flatMap_cons, List.filterMap_append, ih]
    congr 1
    cases hm : makeModuleDoc m options with
    | none => rfl
    | some ns => simp

/-- Claim C7: a module with neither declarations nor exports produces no
module document, and the root document is exactly the concatenation of
the modules' node sequences in manifest order (absent ones contributing
nothing). -/
theorem c7_empty_module_contributes_nothing (options : Option Options)
    (mods : List ManifestModule) (mod : ManifestModule) :
    (mod.declarations.getD [] = [] → mod.exports.getD [] = [] → makeModuleDoc mod options = none) ∧
    customElementsManifestToMarkdown { modules := some mods } options =
      Except.ok (Node.root (mods.flatMap (fun m => (makeModuleDoc m options).getD []))) := by
  constructor
  · intro h1 h2
    simp [makeModuleDoc, h1, h2]
  · show Except.ok (Node.root ((mods.flatMap (fun x => match makeModuleDoc x options with
        | some ns => ns.map some
        | none => [none])).filterMap id)) =
      Except.ok (Node.root (mods.flatMap (fun m => (makeModuleDoc m options).getD [])))
    rw [root_children_concat]

/-- Witness for C7 on the all-absent module and the empty manifest. -/
theorem c7_empty_module_contributes_nothing_witness :
    makeModuleDoc {} none = none :=
  (c7_empty_module_contributes_nothing none [] {}).1 rfl rfl

/-- A node reached through `.map some` of a table section is a heading
or a table. -/
lemma shape_of_mem_map_some_table {n : Node} (options : Option Options) (title : String)
    (names : List ColumnSpec) (_decls : Option (List JSVal)) (topts : TableOpts)
    (hx : some n ∈ (tableWithTitle options title names _decls topts).map some) :
    (∃ d c, n = Node.heading d c) ∨ (∃ a rs, n = Node.table a rs) := by
  rcases List.mem_map.mp hx with ⟨a, ha, he⟩
  exact Option.some.inj he ▸ mem_tableWithTitle_shape options title names _decls topts ha

/-- Every node of a declaration section's main array is a heading or a
table — in particular never an html marker. -/
lemma mem_declMainNodes_shape {n : Node} (options : Option Options) (decl : JSVal)
    (h : n ∈ declMainNodes options decl) :
    (∃ d c, n = Node.heading d c) ∨ (∃ a rs, n = Node.table a rs) := by
  unfold declMainNodes at h
  rw [List.mem_filterMap] at h
  rcases h with ⟨x, hx, hid⟩
  simp only [id_eq] at hid
  subst hid
  simp only [List.mem_append] at hx
  rcases hx with ((((((((((hx | hx) | hx) | hx) | hx) | hx) | hx) | hx) | hx) | hx) | hx)
  · split at hx
    · simp at hx
    · simp only [List.mem_singleton, Option.some.injEq] at hx
      subst hx
      exact Or.inl ⟨_, _, rfl⟩
  · exact shape_of_mem_map_some_table _ _ _ _ _ hx
  · exact shape_of_mem_map_some_table _ _ _ _ _ hx
  · split at hx
    · exact shape_of_mem_map_some_table _ _ _ _ _ hx
    · simp at hx
  · exact shape_of_mem_map_some_table _ _ _ _ _ hx
  · exact shape_of_mem_map_some_table _ _ _ _ _ hx
  · exact shape_of_mem_map_some_table _ _ _ _ _ hx
  · exact shape_of_mem_map_some_table _ _ _ _ _ hx
  · exact shape_of_mem_map_some_table _ _ _ _ _ hx
  · exact shape_of_mem_map_some_table _ _ _ _ _ hx
  · exact shape_of_mem_map_some_table _ _ _ _ _ hx

/-- The private-API opening marker never occurs among the main nodes. -/
lemma privateApiOpen_not_mem_main (options : Option Options) (decl : JSVal) :
    privateApiOpen ∉ declMainNodes options decl := by
  intro h
  rcases mem_declMainNodes_shape options decl h with ⟨d, c, hc⟩ | ⟨a, rs, hc⟩ <;>
    exact Node.noConfusion hc

/-- Claim C4: the collapsible private-API block opens exactly when the
policy is `"details"` and some field or method is private/protected; the
`"details"`-policy scenario — two public fields and one private field —
renders a main Fields table with exactly 2 data rows followed by an
appendix Fields table with exactly 1; and the appendix's identity filter
bypasses row filtering, passing any pre-filtered truthy subset through
unchanged. -/
theorem c4_private_api (options : Option Options) (decl : JSVal) :
    (privateApiOpen ∈ declSection options decl ↔ privateApiCondition options decl = true) ∧
    dataRowCounts (declSection detailsOptions classDecl) = [2, 1] ∧
    (∀ rows : List JSVal, (∀ r ∈ rows, truthy r = true) →
      surviving options { filter := some identityFilter } (some rows) = rows) := by
  refine ⟨?_, rfl, ?_⟩
  · unfold declSection
    by_cases hc : privateApiCondition options decl = true
    · simp only [hc, if_true]
      have hne : ((declMainNodes options decl ++ privateApiNodes options decl).length != 0) = true := by
        simp [privateApiNodes, List.length_append]
      rw [if_pos hne]
      simp [privateApiNodes]
    · have hcf : privateApiCondition options decl = false := by
        revert hc
        cases privateApiCondition options decl <;> simp
      simp only [hcf, Bool.false_eq_true, if_false]
      have hno : privateApiOpen ∉
          (if (declMainNodes options decl).length != 0
            then declMainNodes options decl ++ [line]
            else declMainNodes options decl) := by
        split
        · intro hmem
          rcases List.mem_append.mp hmem with hm | hm
          · exact privateApiOpen_not_mem_main options decl hm
          · simp [privateApiOpen, line] at hm
        · exact privateApiOpen_not_mem_main options decl
      simp [hno, hcf]
  · intro rows hr
    show List.filter truthy (List.filter identityFilter rows) = rows
    rw [List.filter_filter, List.filter_eq_self]
    intro a ha
    simp [identityFilter, hr a ha]

/-- Witness for C4: the identity filter passes even a protected row
through untouched. -/
theorem c4_private_api_witness :
    surviving none { filter := some identityFilter } (some [protectedRow]) = [protectedRow] :=
  (c4_private_api none JSVal.undefined).2.2 [protectedRow] (by decide)

/-- Claim C8: in a module document the Variables separator is present
exactly when the Variables table is emitted, and likewise for Functions
— for schema-shaped declaration rows (objects, with variables and
functions carrying no private/protected tag, §3). -/
theorem c8_separator_iff_table (options : Option Options) (declarations : List JSVal)
    (h : ∀ d ∈ declarations, truthy d = true ∧ isPrivate d = false ∧ isProtected d = false) :
    ((if (moduleVariables declarations).length != 0 then [line] else []) = [line] ↔
      tableWithTitle options "Variables" variableColumns (some (moduleVariables declarations))
        { headingLevel := 2 } ≠ []) ∧
    ((if (moduleFunctions declarations).length != 0 then [line] else []) = [line] ↔
      tableWithTitle options "Functions" functionColumns (some (moduleFunctions declarations))
        { headingLevel := 2 } ≠ []) := by
  have hv := surviving_schema options { headingLevel := 2 } (moduleVariables declarations) rfl
    (fun d hd => h d (List.mem_of_mem_filter hd))
  have hf := surviving_schema options { headingLevel := 2 } (moduleFunctions declarations) rfl
    (fun d hd => h d (List.mem_of_mem_filter hd))
  constructor
  · rw [ne_eq, tableWithTitle_eq_nil_iff, hv]
    by_cases he : moduleVariables declarations = []
    · simp [he]
    · have hl : ((moduleVariables declarations).length != 0) = true := by
        simp only [bne_iff_ne, ne_eq, List.length_eq_zero]
        exact he
      simp [hl, he]
  · rw [ne_eq, tableWithTitle_eq_nil_iff, hf]
    by_cases he : moduleFunctions declarations = []
    · simp [he]
    · have hl : ((moduleFunctions declarations).length != 0) = true := by
        simp only [bne_iff_ne, ne_eq, List.length_eq_zero]
        exact he
      simp [hl, he]

/-- Witness for C8 on a one-variable module. -/
theorem c8_separator_iff_table_witness :
    (if (moduleVariables [varRow]).length != 0 then [line] else []) = [line] ↔
      tableWithTitle none "Variables" variableColumns (some (moduleVariables [varRow]))
        { headingLevel := 2 } ≠ [] :=
  (c8_separator_iff_table none [varRow] (by decide)).1

/-- Witness for C10 at a concrete falsy value. -/
theorem c10_falsy_cells_witness :
    getCell 0 { heading := "Type", cellType := Node.inlineCode, values := [.str ""] } =
      Node.tableCell [Node.text (.str "")] :=
  (c10_falsy_cells 0 { heading := "Type", cellType := Node.inlineCode, values := [.str ""] }
    "Type" Node.inlineCode).1 rfl
